import Mathlib

/-!
Shallow embedding of the tomography preprocessing methods of this repository:
the flat/dark-field normalization (`normalize_cupy`), the 3D median/dezinger
filter (`median_filter3d` / `remove_outlier3d`), and the radial distortion
correction (`correct_distortion` with its coefficient-file loader
`_load_metadata_txt`).

Modelling conventions:
* dense arrays are modelled by `Arr`: a shape (list of dimension sizes), a
  dtype tag, and a total valuation `List ℕ → ℝ` (junk outside the shape);
* machine floats are modelled by real numbers (the claims settled here only
  involve values that float32 represents exactly, or pure control flow);
* Python exceptions are modelled by `Except PyErr`; distinct raise sites
  with distinct messages get distinct `PyErr` constructors;
* the CUDA median kernel source is not part of the repository snapshot, so
  its body is modelled from the spec (see `median_kernel`); everything else
  is translated statement-by-statement from the Python source;
* a transform call returns a pair `(state, out)`: `state` is the caller's
  input buffer after the call (the distortion corrector writes corrected
  frames back into it in place; the other two transforms only write to
  freshly allocated arrays, so there `state` is the untouched input).
-/

namespace Httomo

/-- Numpy/cupy dtype tags.  `float64` stands for any dtype other than the two
the median filter accepts. -/
inductive Dtype where
  | float32 : Dtype
  | uint16 : Dtype
  | float64 : Dtype
deriving DecidableEq

/-- Python exceptions raised by the modelled code, one constructor per raise
site (sites with different messages get different constructors). -/
inductive PyErr where
  /-- `TypeError`: `open(None)` in `_load_metadata_txt`, or
  `np.asarray(None)` / `tuple(None)` on missing explicit parameters. -/
  | typeError : PyErr
  /-- `FileNotFoundError` from `open` on a path that is not a file. -/
  | fileNotFound : PyErr
  /-- `IndexError`: `split()[-1]` on an empty line, or `list_data[0]` /
  `list_data[1]` on a file with fewer than two lines. -/
  | indexError : PyErr
  /-- `ValueError` from `float()` on a non-numeric token. -/
  | floatParseError : PyErr
  /-- `ValueError`: preview step larger than 1 (correct_distortion). -/
  | valueErrorStep : PyErr
  /-- `ValueError`: "No such file" guard in correct_distortion. -/
  | valueErrorNoFile : PyErr
  /-- `ValueError` re-raised from an `IOError` while reading the file. -/
  | valueErrorCantOpen : PyErr
  /-- `ValueError` from `np.max` / `np.min` on a zero-size array. -/
  | valueErrorEmptyMax : PyErr
  /-- `ValueError`: "increase the preview size" (vertical spread below 1). -/
  | valueErrorPreviewSize : PyErr
  /-- `ValueError`: could not broadcast one shape into another. -/
  | valueErrorBroadcast : PyErr
  /-- `NameError`: `return mat_corrected` with zero loop iterations. -/
  | nameError : PyErr
  /-- `ValueError`: "Input data must be a 3D stack of projections". -/
  | valueErrorNotStack : PyErr
  /-- `ValueError`: "Input flats must be 2D or 3D data only". -/
  | valueErrorFlats : PyErr
  /-- `ValueError`: "Input darks must be 2D or 3D data only". -/
  | valueErrorDarks : PyErr
  /-- `ValueError`: "The input data should be either float32 or uint16". -/
  | valueErrorDtype : PyErr
  /-- `ValueError`: "The length of one of dimensions is equal to zero". -/
  | valueErrorZeroDim : PyErr
  /-- `ValueError`: "The input array must be a 3D array". -/
  | valueErrorNot3D : PyErr
  /-- `ValueError`: "Please select a correct kernel size: 3, 5, 7, 9, 11, 13". -/
  | valueErrorKernelSize : PyErr
deriving DecidableEq

/-- A dense numeric array: shape, dtype tag and a total valuation (junk
outside the shape).  Index `[i, j, k]` models `a[i, j, k]`. -/
structure Arr where
  shape : List ℕ
  dtype : Dtype
  v : List ℕ → ℝ

/-- `np.mean(a, axis=0, dtype=np.float32)`: drops the leading axis and
averages over it. -/
noncomputable def meanAxis0 (a : Arr) : Arr :=
  { shape := a.shape.tail
    dtype := .float32
    v := fun idx => (∑ f ∈ Finset.range (a.shape.headD 0), a.v (f :: idx)) /
      (a.shape.headD 0 : ℝ) }

/-- `a[np.newaxis, ...]` / `np.expand_dims(a, axis=0)` (a view: index 0 on
the new axis). -/
def expandAxis0 (a : Arr) : Arr :=
  { shape := 1 :: a.shape, dtype := a.dtype, v := fun idx => a.v idx.tail }

/-- Elementwise map over an array (models in-place elementwise updates such
as `x[x > c] = c`, which only touch the array they are applied to). -/
def amap (g : ℝ → ℝ) (a : Arr) : Arr :=
  { a with v := fun idx => g (a.v idx) }

/-- Numpy broadcast compatibility of two equal-rank shapes: on every axis the
sizes agree or one of them is 1. -/
def bcastOk (s t : List ℕ) : Bool :=
  s.length == t.length &&
    (List.range s.length).all fun i =>
      s.getD i 0 == t.getD i 0 || s.getD i 0 == 1 || t.getD i 0 == 1

/-- Broadcast result shape (axis of size 1 stretches to the other size). -/
def bcastShape (s t : List ℕ) : List ℕ :=
  List.zipWith (fun a b => if a = 1 then b else a) s t

/-- Source index of broadcasting: axes of size 1 are read at index 0. -/
def bIdx (s idx : List ℕ) : List ℕ :=
  List.zipWith (fun d i => if d = 1 then 0 else i) s idx

/-- Elementwise binary operation with numpy broadcasting.  The result dtype
is `float32` (in the modelled calls one operand is always float32-typed, so
the promoted dtype is float32). -/
def bop (f : ℝ → ℝ → ℝ) (a b : Arr) : Except PyErr Arr :=
  if bcastOk a.shape b.shape then
    .ok { shape := bcastShape a.shape b.shape
          dtype := .float32
          v := fun idx => f (a.v (bIdx a.shape idx)) (b.v (bIdx b.shape idx)) }
  else .error .valueErrorBroadcast

/-! ## `_load_metadata_txt` (src/src/httomolib/correction.py, lines 136-163)

A text file is modelled as a list of lines, each line a list of
whitespace-separated tokens; a token is `some q` when Python's `float`
parses it to the value `q`, and `none` when it is a non-numeric label. -/

/-- One line of a coefficient file: its whitespace-separated tokens. -/
abbrev MetaLine := List (Option ℚ)

/-- A coefficient file: its lines (as split by `splitlines`). -/
abbrev MetaFile := List MetaLine

/-- A file system: maps a path to the content of the file stored there
(paths are opaque and modelled by naturals). -/
abbrev FileSys := ℕ → Option MetaFile

/-- `float(line.split()[-1])`: the last whitespace-separated token of the
line, parsed as a float.  An empty split raises `IndexError`; a non-numeric
last token raises `ValueError`. -/
def parseLine (l : MetaLine) : Except PyErr ℚ :=
  match l.getLast? with
  | none => .error .indexError
  | some none => .error .floatParseError
  | some (some q) => .ok q

/-- The `for i in x: list_data.append(float(i.split()[-1]))` loop: parses
every line in order, propagating the first failure. -/
def parseLines : MetaFile → Except PyErr (List ℚ)
  | [] => .ok []
  | l :: ls =>
    match parseLine l with
    | .error e => .error e
    | .ok q =>
      match parseLines ls with
      | .error e => .error e
      | .ok qs => .ok (q :: qs)

/-- Body of `_load_metadata_txt` once the file content is available:
`list_data[0]` is the x center, `list_data[1]` the y center,
`list_data[2:]` the coefficient list (fewer than two lines raises
`IndexError`). -/
def parse_metadata (lines : MetaFile) : Except PyErr (ℚ × ℚ × List ℚ) :=
  match parseLines lines with
  | .error e => .error e
  | .ok listData =>
    match listData with
    | x :: y :: rest => .ok (x, y, rest)
    | _ => .error .indexError

/-- `_load_metadata_txt(file_path)`: `open(None)` raises `TypeError`;
`open` on a missing path raises `FileNotFoundError`; otherwise the content
is parsed line by line. -/
def load_metadata_txt (fs : FileSys) (path : Option ℕ) :
    Except PyErr (ℚ × ℚ × List ℚ) :=
  match path with
  | none => .error .typeError
  | some p =>
    match fs p with
    | none => .error .fileNotFound
    | some lines => parse_metadata lines

/-! ## `median_filter3d` / `remove_outlier3d` (src/httomolib/misc/corr.py) -/

/-- Index reflection at the volume edges ("reflect" boundary: the edge value
repeats, `-1 ↦ 0`, `n ↦ n-1`). -/
def reflectIdx (n : ℕ) (i : ℤ) : ℕ :=
  if n = 0 then 0
  else
    let m : ℤ := 2 * n
    let j := i % m
    if j < n then j.toNat else (m - 1 - j).toNat

/-- Median of a list of values: middle element of the sorted list. -/
noncomputable def medianList (l : List ℝ) : ℝ :=
  (l.insertionSort (· ≤ ·)).getD (l.length / 2) 0

/-- Modelled from the spec: the CUDA `median_general_kernel` loaded by
`load_cuda_module("median_kernel", ...)` is not part of the repository
snapshot, so its per-voxel behaviour follows spec §4.2: gather the cubic
neighbourhood of side `kernel_size` with reflect boundary handling, take the
median, and with `dif > 0` replace the voxel only when it deviates from the
median by more than `dif`. -/
noncomputable def median_kernel (data : Arr) (kernel_size : ℕ) (dif : ℝ) : Arr :=
  let dz := data.shape.getD 0 0
  let dy := data.shape.getD 1 0
  let dx := data.shape.getD 2 0
  let r : ℤ := kernel_size / 2
  { shape := data.shape
    dtype := data.dtype
    v := fun idx =>
      match idx with
      | [z, y, x] =>
        let nb : List ℝ :=
          (List.range kernel_size).foldr (fun i acc1 =>
            (List.range kernel_size).foldr (fun j acc2 =>
              (List.range kernel_size).foldr (fun l acc3 =>
                data.v [reflectIdx dz ((z : ℤ) + i - r),
                        reflectIdx dy ((y : ℤ) + j - r),
                        reflectIdx dx ((x : ℤ) + l - r)] :: acc3) acc2) acc1) []
        let med := medianList nb
        let orig := data.v [z, y, x]
        if dif = 0 then med else if |orig - med| > dif then med else orig
      | _ => data.v idx }

/-- Validation and output allocation of `median_filter3d` (corr.py lines
71-106): dtype check, then dimensionality / zero-size check, then kernel-size
check, and only then the kernel dispatch into the fresh output buffer. -/
noncomputable def median_filter3d_out (data : Arr) (kernel_size : ℕ)
    (dif : ℝ) : Except PyErr Arr :=
  if ¬ (data.dtype = .float32 ∨ data.dtype = .uint16) then
    .error .valueErrorDtype
  else if data.shape.length = 3 then
    if 0 ∈ data.shape then .error .valueErrorZeroDim
    else if ¬ (kernel_size ∈ [3, 5, 7, 9, 11, 13]) then
      .error .valueErrorKernelSize
    else .ok (median_kernel data kernel_size dif)
  else .error .valueErrorNot3D

/-- `median_filter3d(data, kernel_size, dif)`.  The first component of a
successful result is the caller's input buffer after the call: the wrapper
allocates `out = cp.empty(...)` and the kernel only writes to `out`, so the
input comes back unchanged. -/
noncomputable def median_filter3d (data : Arr) (kernel_size : ℕ) (dif : ℝ) :
    Except PyErr (Arr × Arr) :=
  (median_filter3d_out data kernel_size dif).map fun out => (data, out)

/-- Default `dif` of `median_filter3d` (corr.py line 46). -/
def median_filter3d_default_dif : ℝ := 0.0

/-- `remove_outlier3d(data, kernel_size, dif)` (corr.py lines 110-136):
`return median_filter3d(data=data, kernel_size=kernel_size, dif=dif)`. -/
noncomputable def remove_outlier3d (data : Arr) (kernel_size : ℕ) (dif : ℝ) :
    Except PyErr (Arr × Arr) :=
  median_filter3d data kernel_size dif

/-- Default `dif` of `remove_outlier3d` (corr.py line 111). -/
def remove_outlier3d_default_dif : ℝ := 0.1

/-! ## `normalize_cupy` (src/src/httomolib/prep/normalize.py, lines 127-197) -/

/-- Output computation of `normalize_cupy`: means are taken over axis 0
*before* the dimensionality checks; a 2D calibration input therefore arrives
at the checks as a 1D array.  `cp.isnan` is identically false on real-valued
data, so the `remove_nans` branch leaves the array unchanged in this model. -/
noncomputable def normalize_out (data flats0 darks0 : Arr) (cutoff : ℝ)
    (minus_log nonnegativity remove_nans : Bool) : Except PyErr Arr :=
  let darks := meanAxis0 darks0
  let flats := meanAxis0 flats0
  if data.shape.length ≠ 3 then .error .valueErrorNotStack
  else
    let flats := if flats.shape.length = 2 then expandAxis0 flats else flats
    let darks := if darks.shape.length = 2 then expandAxis0 darks else darks
    if ¬ (flats.shape.length = 2 ∨ flats.shape.length = 3) then
      .error .valueErrorFlats
    else if ¬ (darks.shape.length = 2 ∨ darks.shape.length = 3) then
      .error .valueErrorDarks
    else
      match bop (· - ·) flats darks with
      | .error e => .error e
      | .ok denom0 =>
        let denom := amap (fun x => if x < 1 then 1 else x) denom0
        match bop (· - ·) data darks with
        | .error e => .error e
        | .ok numer =>
          match bop (· / ·) numer denom with
          | .error e => .error e
          | .ok d0 =>
            let d1 := amap (fun x => if cutoff < x then cutoff else x) d0
            let d2 := if minus_log then amap (fun x => -Real.log x) d1 else d1
            let d3 :=
              if nonnegativity then amap (fun x => if x < 0 then 0 else x) d2
              else d2
            let d4 := if remove_nans then d3 else d3
            .ok d4

/-- `normalize_cupy(data, flats, darks, ...)`.  The first component of a
successful result is the caller's input buffer after the call: every
in-place update in the source (`denom[...] = 1.0`, `data[...] = cutoff`,
...) targets an array freshly allocated inside the call, so the input comes
back unchanged. -/
noncomputable def normalize_cupy (data flats darks : Arr) (cutoff : ℝ)
    (minus_log nonnegativity remove_nans : Bool) : Except PyErr (Arr × Arr) :=
  (normalize_out data flats darks cutoff minus_log nonnegativity
    remove_nans).map fun out => (data, out)

/-! ## `correct_distortion` (src/src/httomolib/correction.py, lines 9-133) -/

/-- The preview descriptor: per-axis `starts` and `steps` lists (the code
reads entries 0 and 1 of each; the lists are assumed to cover the data
axes). -/
structure Preview where
  starts : List ℤ
  steps : List ℤ

/-- `ru_mat[y][x]`: radius of pixel `(x, y)` from the distortion center. -/
noncomputable def ruMat (xc yc : ℝ) (y x : ℕ) : ℝ :=
  Real.sqrt ((x - xc) ^ 2 + (y - yc) ^ 2)

/-- `fact_mat[y][x]`: the polynomial radial distortion factor
`sum(factor_i * ru^i)`. -/
noncomputable def factMat (lf : List ℝ) (xc yc : ℝ) (y x : ℕ) : ℝ :=
  ∑ i ∈ Finset.range lf.length, lf.getD i 0 * (ruMat xc yc y x) ^ i

/-- `xd_mat[y][x] = np.clip(x_center + fact * xu, 0, width - 1)`. -/
noncomputable def xdMat (w : ℕ) (lf : List ℝ) (xc yc : ℝ) (y x : ℕ) : ℝ :=
  min (max (xc + factMat lf xc yc y x * (x - xc)) 0) ((w : ℝ) - 1)

/-- `yd_mat[y][x] = np.clip(y_center + fact * yu, 0, height - 1)`. -/
noncomputable def ydMat (h : ℕ) (lf : List ℝ) (xc yc : ℝ) (y x : ℕ) : ℝ :=
  min (max (yc + factMat lf xc yc y x * (y - yc)) 0) ((h : ℝ) - 1)

/-- All grid values `f y x` for `y < h`, `x < w` (row-major). -/
noncomputable def gridVals (h w : ℕ) (f : ℕ → ℕ → ℝ) : List ℝ :=
  (List.range (h * w)).map fun k => f (k / w) (k % w)

/-- `np.max` over a nonempty list of values. -/
noncomputable def listMax : List ℝ → ℝ
  | [] => 0
  | a :: t => t.foldl max a

/-- `np.min` over a nonempty list of values. -/
noncomputable def listMin : List ℝ → ℝ
  | [] => 0
  | a :: t => t.foldl min a

/-- `np.max` of a 2D grid of values. -/
noncomputable def gridMax (h w : ℕ) (f : ℕ → ℕ → ℝ) : ℝ := listMax (gridVals h w f)

/-- `np.min` of a 2D grid of values. -/
noncomputable def gridMin (h w : ℕ) (f : ℕ → ℕ → ℝ) : ℝ := listMin (gridVals h w f)

/-- `scipy.ndimage.map_coordinates(frame, coords, order=1, mode='reflect')`
at one coordinate pair: bilinear interpolation between the four surrounding
pixels, indices reflected at the edges. -/
noncomputable def interp2 (h w : ℕ) (f : ℕ → ℕ → ℝ) (yc xc : ℝ) : ℝ :=
  let y0 := ⌊yc⌋
  let x0 := ⌊xc⌋
  let wy := yc - y0
  let wx := xc - x0
  (1 - wy) * (1 - wx) * f (reflectIdx h y0) (reflectIdx w x0) +
    (1 - wy) * wx * f (reflectIdx h y0) (reflectIdx w (x0 + 1)) +
    wy * (1 - wx) * f (reflectIdx h (y0 + 1)) (reflectIdx w x0) +
    wy * wx * f (reflectIdx h (y0 + 1)) (reflectIdx w (x0 + 1))

/-- `mat_corrected[y][x]` of frame `i` after cropping: the frame resampled
through the sampling map at the (cropped) destination pixel. -/
noncomputable def distortCorrected (data : Arr) (h w : ℕ) (lf : List ℝ)
    (xc yc : ℝ) (crop : ℕ) (i y x : ℕ) : ℝ :=
  interp2 h w (fun yy xx => data.v [i, yy, xx])
    (ydMat h lf xc yc (y + crop) (x + crop))
    (xdMat w lf xc yc (y + crop) (x + crop))

/-- The input stack after the `data[i] = mat_corrected` loop: every frame is
overwritten (through broadcasting) by its cropped corrected image. -/
noncomputable def distortFinal (data : Arr) (n h w : ℕ) (lf : List ℝ)
    (xc yc : ℝ) (crop : ℕ) : Arr :=
  { data with v := fun idx =>
      match idx with
      | [i, y, x] =>
        if i < n ∧ y < h ∧ x < w then
          distortCorrected data h w lf xc yc crop i
            (if h - 2 * crop = 1 then 0 else y)
            (if w - 2 * crop = 1 then 0 else x)
        else data.v idx
      | _ => data.v idx }

/-- The value `return`ed by `correct_distortion`: the cropped corrected
image of the *last* frame only (a 2D array). -/
noncomputable def distortRet (data : Arr) (n h w : ℕ) (lf : List ℝ)
    (xc yc : ℝ) (crop : ℕ) : Arr :=
  { shape := [h - 2 * crop, w - 2 * crop]
    dtype := data.dtype
    v := fun idx =>
      match idx with
      | [y, x] => distortCorrected data h w lf xc yc crop (n - 1) y x
      | _ => 0 }

/-- The `for i in range(data.shape[0])` loop and the final `return`: with
zero frames the loop never runs and `return mat_corrected` raises
`NameError`; `data[i] = mat_corrected` requires the cropped shape to
broadcast into a frame (sizes equal, or 1); on success the final (mutated)
input and the returned last cropped frame are produced. -/
noncomputable def distortLoop (data : Arr) (n h w : ℕ) (lf : List ℝ)
    (xc yc : ℝ) (crop : ℕ) : Except PyErr (Arr × Arr) :=
  if n = 0 then .error .nameError
  else if ¬ ((h - 2 * crop = h ∨ h - 2 * crop = 1) ∧
      (w - 2 * crop = w ∨ w - 2 * crop = 1)) then
    .error .valueErrorBroadcast
  else .ok (distortFinal data n h w lf xc yc crop,
            distortRet data n h w lf xc yc crop)

/-- `correct_distortion(data, metadata_path, preview, center_from_left,
center_from_top, polynomial_coeffs, crop)`.  Mirrors the source line by
line, including the unconditional `_load_metadata_txt(metadata_path)` call
at line 61 (whose results are discarded: the center and coefficients are
recomputed at lines 79-100).  Returns the pair (input stack after the call,
returned array). -/
noncomputable def correct_distortion (data0 : Arr) (metadata_path : Option ℕ)
    (fs : FileSys) (preview : Preview)
    (center_from_left center_from_top : Option ℚ)
    (polynomial_coeffs : Option (List ℚ)) (crop : ℕ) :
    Except PyErr (Arr × Arr) :=
  -- a single 2D image becomes a one-frame stack (as a view of the input)
  let data := if data0.shape.length = 2 then expandAxis0 data0 else data0
  -- line 61: unconditional metadata load, results discarded below
  match load_metadata_txt fs metadata_path with
  | .error e => .error e
  | .ok _ =>
    if max (preview.steps.getD 1 0) (preview.steps.getD 0 0) > 1 then
      .error .valueErrorStep
    else
      let x_offset := preview.starts.getD 1 0
      let y_offset := preview.starts.getD 0 0
      let resolved : Except PyErr (ℝ × ℝ × List ℝ) :=
        match metadata_path with
        | none =>
          -- np.asarray(None) / np.float32(tuple(None)) raise TypeError
          match center_from_left, center_from_top, polynomial_coeffs with
          | some cl, some ct, some pc =>
            .ok ((cl : ℝ) - (x_offset : ℝ), (ct : ℝ) - (y_offset : ℝ),
              pc.map Rat.cast)
          | _, _, _ => .error .typeError
        | some p =>
          match fs p with
          | none => .error .valueErrorNoFile
          | some lines =>
            -- the `except IOError` only converts I/O failures; parse errors
            -- propagate unchanged (and this branch is unreachable anyway:
            -- line 61 already parsed the same file successfully)
            match parse_metadata lines with
            | .error e => .error e
            | .ok (x0, y0, l0) =>
              .ok ((x0 : ℝ) - (x_offset : ℝ), (y0 : ℝ) - (y_offset : ℝ),
                l0.map Rat.cast)
      match resolved with
      | .error e => .error e
      | .ok (xc, yc, lf) =>
        let height := data.shape.getD 1 0
        let width := data.shape.getD 2 0
        if height = 0 ∨ width = 0 then .error .valueErrorEmptyMax
        else if gridMax height width (ydMat height lf xc yc) -
            gridMin height width (ydMat height lf xc yc) < 1 then
          .error .valueErrorPreviewSize
        else distortLoop data (data.shape.getD 0 0) height width lf xc yc crop

/-! ## Helper lemmas -/

theorem le_foldl_max (t : List ℝ) (b : ℝ) : b ≤ t.foldl max b := by
  induction t generalizing b with
  | nil => exact le_refl b
  | cons c t ih => exact le_trans (le_max_left b c) (ih (max b c))

theorem mem_le_foldl_max (t : List ℝ) (b a : ℝ) (ha : a ∈ t) :
    a ≤ t.foldl max b := by
  induction t generalizing b with
  | nil => cases ha
  | cons c t ih =>
    rcases List.mem_cons.mp ha with h | h
    · subst h; exact le_trans (le_max_right b a) (le_foldl_max t (max b a))
    · exact ih (max b c) h

theorem foldl_min_le (t : List ℝ) (b : ℝ) : t.foldl min b ≤ b := by
  induction t generalizing b with
  | nil => exact le_refl b
  | cons c t ih => exact le_trans (ih (min b c)) (min_le_left b c)

theorem foldl_min_le_mem (t : List ℝ) (b a : ℝ) (ha : a ∈ t) :
    t.foldl min b ≤ a := by
  induction t generalizing b with
  | nil => cases ha
  | cons c t ih =>
    rcases List.mem_cons.mp ha with h | h
    · subst h; exact le_trans (foldl_min_le t (min b a)) (min_le_right b a)
    · exact ih (min b c) h

theorem le_listMax (l : List ℝ) (a : ℝ) (ha : a ∈ l) : a ≤ listMax l := by
  cases l with
  | nil => cases ha
  | cons c t =>
    rcases List.mem_cons.mp ha with h | h
    · subst h; exact le_foldl_max t a
    · exact mem_le_foldl_max t c a h

theorem listMin_le (l : List ℝ) (a : ℝ) (ha : a ∈ l) : listMin l ≤ a := by
  cases l with
  | nil => cases ha
  | cons c t =>
    rcases List.mem_cons.mp ha with h | h
    · subst h; exact foldl_min_le t a
    · exact foldl_min_le_mem t c a h

theorem mem_gridVals (h w : ℕ) (f : ℕ → ℕ → ℝ) (y x : ℕ) (hy : y < h)
    (hx : x < w) : f y x ∈ gridVals h w f := by
  unfold gridVals
  refine List.mem_map.mpr ⟨x + w * y, List.mem_range.mpr ?_, ?_⟩
  · calc x + w * y < w + w * y := by omega
      _ = w * (y + 1) := by ring
      _ ≤ w * h := Nat.mul_le_mul_left w (by omega)
      _ = h * w := Nat.mul_comm w h
  · rw [Nat.add_mul_div_left x y (by omega), Nat.div_eq_of_lt hx,
      Nat.add_mul_mod_self_left, Nat.mod_eq_of_lt hx, Nat.zero_add]

theorem gridMax_ge (h w : ℕ) (f : ℕ → ℕ → ℝ) (y x : ℕ) (hy : y < h)
    (hx : x < w) : f y x ≤ gridMax h w f :=
  le_listMax _ _ (mem_gridVals h w f y x hy hx)

theorem gridMin_le (h w : ℕ) (f : ℕ → ℕ → ℝ) (y x : ℕ) (hy : y < h)
    (hx : x < w) : gridMin h w f ≤ f y x :=
  listMin_le _ _ (mem_gridVals h w f y x hy hx)

theorem reflectIdx_coe (n i : ℕ) (h : i < n) : reflectIdx n (i : ℤ) = i := by
  unfold reflectIdx
  rw [if_neg (by omega : ¬ n = 0)]
  have hmod : (i : ℤ) % (2 * (n : ℤ)) = i :=
    Int.emod_eq_of_lt (by positivity) (by exact_mod_cast by omega : (i : ℤ) < 2 * n)
  simp only [hmod]
  rw [if_pos (by exact_mod_cast h)]
  exact Int.toNat_natCast i

theorem interp2_natCast (h w : ℕ) (f : ℕ → ℕ → ℝ) (y x : ℕ) (hy : y < h)
    (hx : x < w) : interp2 h w f (y : ℝ) (x : ℝ) = f y x := by
  unfold interp2
  simp only [Int.floor_natCast]
  rw [reflectIdx_coe h y hy, reflectIdx_coe w x hx]
  push_cast
  ring

theorem getD_replicate_zero (m k : ℕ) : (List.replicate m (0 : ℝ)).getD k 0 = 0 := by
  induction m generalizing k with
  | zero => simp [List.getD]
  | succ m ih =>
    cases k with
    | zero => simp [List.replicate]
    | succ k => simp only [List.replicate, List.getD_cons_succ]; exact ih k

theorem factMat_singleton (c xc yc : ℝ) (y x : ℕ) :
    factMat [c] xc yc y x = c := by
  simp [factMat, Finset.sum_range_one]

theorem factMat_one_zeros (m : ℕ) (xc yc : ℝ) (y x : ℕ) :
    factMat ((1 : ℝ) :: List.replicate m 0) xc yc y x = 1 := by
  unfold factMat
  rw [show ((1 : ℝ) :: List.replicate m 0).length = m + 1 by simp]
  rw [Finset.sum_eq_single 0]
  · simp
  · intro b _ hb0
    obtain ⟨k, rfl⟩ : ∃ k, b = k + 1 := ⟨b - 1, by omega⟩
    have : ((1 : ℝ) :: List.replicate m 0).getD (k + 1) 0 = 0 := by
      simp only [List.getD_cons_succ]; exact getD_replicate_zero m k
    rw [this]; ring
  · intro hmem
    exact absurd (Finset.mem_range.mpr (Nat.succ_pos m)) hmem

theorem ydMat_one_zeros (h m : ℕ) (xc yc : ℝ) (y x : ℕ) (hy : y < h) :
    ydMat h ((1 : ℝ) :: List.replicate m 0) xc yc y x = y := by
  unfold ydMat
  rw [factMat_one_zeros]
  rw [show yc + 1 * ((y : ℝ) - yc) = (y : ℝ) by ring]
  rw [max_eq_left (by positivity)]
  refine min_eq_left ?_
  have : (y : ℝ) + 1 ≤ h := by exact_mod_cast hy
  linarith

theorem xdMat_one_zeros (w m : ℕ) (xc yc : ℝ) (y x : ℕ) (hx : x < w) :
    xdMat w ((1 : ℝ) :: List.replicate m 0) xc yc y x = x := by
  unfold xdMat
  rw [factMat_one_zeros]
  rw [show xc + 1 * ((x : ℝ) - xc) = (x : ℝ) by ring]
  rw [max_eq_left (by positivity)]
  refine min_eq_left ?_
  have : (x : ℝ) + 1 ≤ w := by exact_mod_cast hx
  linarith

/-! ## Concrete inputs used by the closed theorems -/

/-- A coefficient file with center (0, 0) and identity coefficients [1]. -/
def fileIdent : MetaFile := [[some 0], [some 0], [some 1]]

/-- A coefficient file with center (0, 0) and coefficients [2]. -/
def fileScale2 : MetaFile := [[some 0], [some 0], [some 2]]

/-- A file system holding `fileIdent` at path 0 and `fileScale2` at path 1. -/
def fs1 : FileSys := fun p =>
  if p = 0 then some fileIdent else if p = 1 then some fileScale2 else none

/-- A trivial preview: all starts 0, all steps 1. -/
def pv1 : Preview := ⟨[0, 0, 0], [1, 1, 1]⟩

/-- A preview with step 2 on both spatial axes. -/
def pvStep2 : Preview := ⟨[0, 0, 0], [1, 2, 2]⟩

/-- A 2-frame 2×1 float32 stack whose frames differ (value = frame index). -/
noncomputable def stack2 : Arr := ⟨[2, 2, 1], .float32, fun idx => (idx.getD 0 0 : ℝ)⟩

/-- A 1-frame 4×4 float32 stack of zeros. -/
noncomputable def stack44 : Arr := ⟨[1, 4, 4], .float32, fun _ => 0⟩

/-- A 1-frame 3×3 float32 stack with pixel values `3*row + col`. -/
noncomputable def stack33 : Arr :=
  ⟨[1, 3, 3], .float32, fun idx => ((3 * idx.getD 1 0 + idx.getD 2 0 : ℕ) : ℝ)⟩

/-- Success path of `correct_distortion` up to the frame loop: with an
existing, parseable coefficient file, unit preview steps, a 3D input of
nonzero height and width, and enough vertical spread in the sampling map,
the call reduces to the frame loop. -/
theorem correct_distortion_ok (data : Arr) (p : ℕ) (fs : FileSys)
    (pv : Preview) (cl ct : Option ℚ) (pc : Option (List ℚ)) (crop : ℕ)
    (lines : MetaFile) (xq yq : ℚ) (lq : List ℚ) (n h w : ℕ)
    (xc yc : ℝ) (lf : List ℝ)
    (hfs : fs p = some lines)
    (hparse : parse_metadata lines = .ok (xq, yq, lq))
    (hstep : ¬ max (pv.steps.getD 1 0) (pv.steps.getD 0 0) > 1)
    (hshape : data.shape = [n, h, w])
    (hh : h ≠ 0) (hw : w ≠ 0)
    (hxc : xc = (xq : ℝ) - ((pv.starts.getD 1 0 : ℤ) : ℝ))
    (hyc : yc = (yq : ℝ) - ((pv.starts.getD 0 0 : ℤ) : ℝ))
    (hlf : lf = lq.map Rat.cast)
    (hdiff : ¬ gridMax h w (ydMat h lf xc yc) -
      gridMin h w (ydMat h lf xc yc) < 1) :
    correct_distortion data (some p) fs pv cl ct pc crop =
      distortLoop data n h w lf xc yc crop := by
  subst hxc hyc hlf
  unfold correct_distortion
  rw [show load_metadata_txt fs (some p) = .ok (xq, yq, lq) by
    simp [load_metadata_txt, hfs, hparse]]
  simp only [hshape, List.length_cons, List.length_nil]
  rw [if_neg (by omega : ¬ (2 + 1 = 2))]
  rw [if_neg hstep]
  simp only [hfs, hparse]
  simp only [hshape, List.getD, List.get?_cons_succ, List.get?_cons_zero,
    Option.getD_some]
  rw [if_neg (by omega : ¬ (h = 0 ∨ w = 0))]
  simp only [List.getD] at hdiff
  rw [if_neg hdiff]

/-! ## Further concrete inputs -/

/-- A 1-frame 2×2 float32 data stack. -/
noncomputable def dataC4 : Arr := ⟨[1, 2, 2], .float32, fun _ => 0⟩

/-- A single 2D 2×2 calibration frame of value 2. -/
noncomputable def flat2d : Arr := ⟨[2, 2], .float32, fun _ => 2⟩

/-- A valid 1×1×1 float32 input for the median filter. -/
noncomputable def arrOK : Arr := ⟨[1, 1, 1], .float32, fun _ => 0⟩

/-- A 2D float64 array: wrong dtype *and* wrong dimensionality at once. -/
noncomputable def arr2dF64 : Arr := ⟨[4, 4], .float64, fun _ => 0⟩

/-! ## Claim theorems -/

/-- C1: the claim fails on the code.  With `metadata_path=None` and explicit
center and coefficients supplied, the unconditional
`_load_metadata_txt(metadata_path)` call at line 61 executes `open(None)`
and the call dies with a `TypeError` before the explicit-parameter branch is
ever reached — instead of resolving the model from the explicit parameters
without any file-access error. -/
theorem correct_distortion_explicit_params_typeError :
    correct_distortion stack2 none fs1 pv1 (some 100) (some 100)
      (some [1]) 0 = .error .typeError := rfl

/-- C7: the claim fails on the code.  With preview steps `[1, 2, 2]`
(step 2 on both spatial axes) but `metadata_path=None` and explicit
parameters supplied, the call raises a `TypeError` from the unconditional
line-61 `_load_metadata_txt(None)` before the step validation runs, so no
validation error is raised. -/
theorem correct_distortion_step_gt1_typeError :
    correct_distortion stack2 none fs1 pvStep2 (some 100) (some 100)
      (some [1]) 0 = .error .typeError ∧
    max (pvStep2.steps.getD 1 0) (pvStep2.steps.getD 0 0) > 1 ∧
    correct_distortion stack2 none fs1 pvStep2 (some 100) (some 100)
      (some [1]) 0 ≠ .error .valueErrorStep := by
  refine ⟨rfl, by decide, ?_⟩
  intro hcontra
  rw [show correct_distortion stack2 none fs1 pvStep2 (some 100) (some 100)
    (some [1]) 0 = .error .typeError from rfl] at hcontra
  injection hcontra with h2
  exact PyErr.noConfusion h2

/-- C4: the claim fails on the code.  `normalize_cupy` applies
`mean(axis=0)` *before* the dimensionality checks, so a 2D flat frame
arrives at the checks as a 1D array and the call is rejected with
"Input flats must be 2D or 3D data only" — a 2D calibration frame is never
accepted, contrary to the claim (and to the function's own docstring). -/
theorem normalize_cupy_rejects_2d_calibration :
    normalize_cupy dataC4 flat2d flat2d 10 false false false =
      .error .valueErrorFlats ∧
    flat2d.shape.length = 2 ∧ dataC4.shape.length = 3 := ⟨rfl, rfl, rfl⟩

/-- C6 (amended): the three validation checks of `median_filter3d` run in
sequence — dtype, then dimensionality/zero-size, then kernel size — so each
error is raised iff its condition holds *and* every earlier check passed;
when all checks pass the kernel runs on a fresh output buffer. -/
theorem median_filter3d_validation (data : Arr) (kernel_size : ℕ) (dif : ℝ) :
    (median_filter3d data kernel_size dif = .error .valueErrorDtype ↔
      ¬ (data.dtype = .float32 ∨ data.dtype = .uint16)) ∧
    ((median_filter3d data kernel_size dif = .error .valueErrorNot3D ∨
      median_filter3d data kernel_size dif = .error .valueErrorZeroDim) ↔
      ((data.dtype = .float32 ∨ data.dtype = .uint16) ∧
        (data.shape.length ≠ 3 ∨ 0 ∈ data.shape))) ∧
    (median_filter3d data kernel_size dif = .error .valueErrorKernelSize ↔
      ((data.dtype = .float32 ∨ data.dtype = .uint16) ∧
        data.shape.length = 3 ∧ 0 ∉ data.shape ∧
        kernel_size ∉ [3, 5, 7, 9, 11, 13])) ∧
    ((data.dtype = .float32 ∨ data.dtype = .uint16) →
      data.shape.length = 3 → 0 ∉ data.shape →
      kernel_size ∈ [3, 5, 7, 9, 11, 13] →
      median_filter3d data kernel_size dif =
        .ok (data, median_kernel data kernel_size dif)) := by
  unfold median_filter3d median_filter3d_out
  by_cases hd : data.dtype = .float32 ∨ data.dtype = .uint16 <;>
    by_cases h3 : data.shape.length = 3 <;>
    by_cases h0 : (0 : ℕ) ∈ data.shape <;>
    by_cases hk : kernel_size ∈ [3, 5, 7, 9, 11, 13] <;>
    simp [hd, h3, h0, hk, Except.map]

/-- Witness for C6: a well-formed input passes all three checks and reaches
the kernel. -/
theorem median_filter3d_validation_witness :
    median_filter3d arrOK 3 0 = .ok (arrOK, median_kernel arrOK 3 0) :=
  (median_filter3d_validation arrOK 3 0).2.2.2 (Or.inl rfl) rfl
    (by decide) (by decide)

/-- Counterexample for C6 as stated: an input that is simultaneously of the
wrong dtype and the wrong dimensionality raises the dtype error, not the
shape error — so "raises a shape error iff the input is not exactly
3-dimensional" is false. -/
theorem median_filter3d_dtype_preempts_shape :
    median_filter3d arr2dF64 3 0 = .error .valueErrorDtype ∧
    arr2dF64.shape.length ≠ 3 ∧
    median_filter3d arr2dF64 3 0 ≠ .error .valueErrorNot3D := by
  refine ⟨rfl, by decide, ?_⟩
  intro h
  rw [show median_filter3d arr2dF64 3 0 = .error .valueErrorDtype
    from rfl] at h
  injection h with h2
  exact PyErr.noConfusion h2

/-- C10: `remove_outlier3d` is literally
`median_filter3d(data=data, kernel_size=kernel_size, dif=dif)` — identical
results and identical errors on every input; the two entry points differ
only in their default `dif` (0.1 versus 0.0). -/
theorem remove_outlier3d_refines_median_filter3d :
    (∀ (data : Arr) (kernel_size : ℕ) (dif : ℝ),
      remove_outlier3d data kernel_size dif =
        median_filter3d data kernel_size dif) ∧
    median_filter3d_default_dif = 0 ∧
    remove_outlier3d_default_dif = 1 / 10 :=
  ⟨fun _ _ _ => rfl, by norm_num [median_filter3d_default_dif],
    by norm_num [remove_outlier3d_default_dif]⟩

theorem parseLines_ok (lines : MetaFile) (vals : List ℚ)
    (hall : List.Forall₂ (fun (l : MetaLine) v => l.getLast? = some (some v))
      lines vals) : parseLines lines = .ok vals := by
  induction hall with
  | nil => rfl
  | cons h _ ih => simp [parseLines, parseLine, h, ih]

/-- C9: on a readable coefficient file with at least two lines, each line's
value being the float parse of its last whitespace-separated token,
`_load_metadata_txt` returns line 1 as `x_center`, line 2 as `y_center`,
and lines 3..N in order as the coefficient list. -/
theorem load_metadata_txt_spec (fs : FileSys) (p : ℕ) (lines : MetaFile)
    (v0 v1 : ℚ) (rest : List ℚ) (hfs : fs p = some lines)
    (hall : List.Forall₂ (fun (l : MetaLine) v => l.getLast? = some (some v))
      lines (v0 :: v1 :: rest)) :
    load_metadata_txt fs (some p) = .ok (v0, v1, rest) := by
  simp [load_metadata_txt, hfs, parse_metadata, parseLines_ok lines _ hall]

/-- Witness for C9 on the concrete file `fileIdent`. -/
theorem load_metadata_txt_spec_witness :
    load_metadata_txt fs1 (some 0) = .ok (0, 0, [1]) :=
  load_metadata_txt_spec fs1 0 fileIdent 0 0 [1] rfl
    (.cons rfl (.cons rfl (.cons rfl .nil)))

/-- With identity coefficients the vertical sampling coordinate at `(y, x)`
is `y`, so the vertical spread over a grid with `h ≥ 2` is at least 1 and
the "increase the preview size" check passes. -/
theorem identity_diff_ok (h w m : ℕ) (xc yc : ℝ) (hh : 2 ≤ h) (hw : w ≠ 0) :
    ¬ gridMax h w (ydMat h ((1 : ℝ) :: List.replicate m 0) xc yc) -
      gridMin h w (ydMat h ((1 : ℝ) :: List.replicate m 0) xc yc) < 1 := by
  intro hlt
  have h1 := gridMax_ge h w (ydMat h ((1 : ℝ) :: List.replicate m 0) xc yc)
    (h - 1) 0 (by omega) (by omega)
  have h2 := gridMin_le h w (ydMat h ((1 : ℝ) :: List.replicate m 0) xc yc)
    0 0 (by omega) (by omega)
  rw [ydMat_one_zeros h m xc yc (h - 1) 0 (by omega)] at h1
  rw [ydMat_one_zeros h m xc yc 0 0 (by omega)] at h2
  have hc : ((h - 1 : ℕ) : ℝ) = (h : ℝ) - 1 := by
    have : (1 : ℕ) ≤ h := by omega
    push_cast [this]
    ring
  rw [hc] at h1
  have hcast : (2 : ℝ) ≤ (h : ℝ) := by exact_mod_cast hh
  simp only [Nat.cast_zero] at h2
  linarith

/-- With identity coefficients and no crop, resampling reproduces the
original pixel exactly (the sampling map is the identity and bilinear
interpolation at integer coordinates is exact). -/
theorem distortCorrected_identity (data : Arr) (h w m : ℕ) (xc yc : ℝ)
    (i y x : ℕ) (hy : y < h) (hx : x < w) :
    distortCorrected data h w ((1 : ℝ) :: List.replicate m 0) xc yc 0 i y x =
      data.v [i, y, x] := by
  unfold distortCorrected
  rw [ydMat_one_zeros h m xc yc (y + 0) (x + 0) (by omega)]
  rw [xdMat_one_zeros w m xc yc (y + 0) (x + 0) (by omega)]
  exact interp2_natCast h w _ (y + 0) (x + 0) (by omega) (by omega)

/-- C2: the claim fails on the code.  The loop writes each cropped frame back
into `data[i]` but `return mat_corrected` returns only the *last* frame — a
2D array of shape (H−2c, W−2c), not an N-frame stack; and with `crop = 1` on
a 1×4×4 stack the write-back `data[i] = mat_corrected` cannot broadcast the
2×2 cropped frame into the 4×4 frame slot and the call dies with a
broadcast `ValueError`. -/
theorem correct_distortion_returns_single_frame :
    (correct_distortion stack2 (some 0) fs1 pv1 none none none 0).map
      (fun r => r.2.shape) = .ok [2, 1] ∧
    stack2.shape = [2, 2, 1] ∧
    correct_distortion stack44 (some 0) fs1 pv1 none none none 1 =
      .error .valueErrorBroadcast := by
  refine ⟨?_, rfl, ?_⟩
  · rw [correct_distortion_ok stack2 0 fs1 pv1 none none none 0 fileIdent
      0 0 [1] 2 2 1 0 0 [(1 : ℝ)] rfl rfl (by decide) rfl (by omega)
      (by omega) (by simp [pv1]) (by simp [pv1]) (by simp)
      (identity_diff_ok 2 1 0 0 0 (by omega) (by omega))]
    rfl
  · rw [correct_distortion_ok stack44 0 fs1 pv1 none none none 1 fileIdent
      0 0 [1] 1 4 4 0 0 [(1 : ℝ)] rfl rfl (by decide) rfl (by omega)
      (by omega) (by simp [pv1]) (by simp [pv1]) (by simp)
      (identity_diff_ok 4 4 0 0 0 (by omega) (by omega))]
    rfl

/-- Evaluation helper: with coefficient file [0, 0, 2] (factor 2) on the
3×3 stack, the corrected value written back at pixel (0, 1, 1) is the
original pixel (0, 2, 2), i.e. 8. -/
theorem distortion33_state_val :
    (correct_distortion stack33 (some 1) fs1 pv1 none none none 0).map
      (fun r => r.1.v [0, 1, 1]) = .ok 8 := by
  have hy11 : ydMat 3 [(2 : ℝ)] 0 0 1 1 = ((2 : ℕ) : ℝ) := by
    unfold ydMat
    rw [factMat_singleton]
    norm_num
  have hx11 : xdMat 3 [(2 : ℝ)] 0 0 1 1 = ((2 : ℕ) : ℝ) := by
    unfold xdMat
    rw [factMat_singleton]
    norm_num
  have hy10 : ydMat 3 [(2 : ℝ)] 0 0 1 0 = 2 := by
    unfold ydMat
    rw [factMat_singleton]
    norm_num
  have hy00 : ydMat 3 [(2 : ℝ)] 0 0 0 0 = 0 := by
    unfold ydMat
    rw [factMat_singleton]
    norm_num
  have hdiff : ¬ gridMax 3 3 (ydMat 3 [(2 : ℝ)] 0 0) -
      gridMin 3 3 (ydMat 3 [(2 : ℝ)] 0 0) < 1 := by
    intro hlt
    have h1 := gridMax_ge 3 3 (ydMat 3 [(2 : ℝ)] 0 0) 1 0 (by omega) (by omega)
    have h2 := gridMin_le 3 3 (ydMat 3 [(2 : ℝ)] 0 0) 0 0 (by omega) (by omega)
    rw [hy10] at h1
    rw [hy00] at h2
    linarith
  rw [correct_distortion_ok stack33 1 fs1 pv1 none none none 0 fileScale2
    0 0 [2] 1 3 3 0 0 [(2 : ℝ)] rfl rfl (by decide) rfl (by omega)
    (by omega) (by simp [pv1]) (by simp [pv1]) (by simp) hdiff]
  have hloop : distortLoop stack33 1 3 3 [(2 : ℝ)] 0 0 0 =
      .ok (distortFinal stack33 1 3 3 [(2 : ℝ)] 0 0 0,
           distortRet stack33 1 3 3 [(2 : ℝ)] 0 0 0) := by
    unfold distortLoop
    rw [if_neg (by omega : ¬ (1 = 0))]
    rw [if_neg (by simp)]
  rw [hloop]
  have hval : (distortFinal stack33 1 3 3 [(2 : ℝ)] 0 0 0).v [0, 1, 1] = 8 := by
    show (if 0 < 1 ∧ 1 < 3 ∧ 1 < 3 then
        distortCorrected stack33 3 3 [(2 : ℝ)] 0 0 0 0
          (if 3 - 2 * 0 = 1 then 0 else 1) (if 3 - 2 * 0 = 1 then 0 else 1)
      else stack33.v [0, 1, 1]) = 8
    rw [if_pos (by omega)]
    rw [if_neg (by omega : ¬ (3 - 2 * 0 = 1))]
    unfold distortCorrected
    rw [show (1 + 0 : ℕ) = 1 from rfl]
    rw [hy11, hx11]
    rw [interp2_natCast 3 3 _ 2 2 (by omega) (by omega)]
    norm_num [stack33]
  simp [Except.map, hval]

/-- The original value of `stack33` at pixel (0, 1, 1). -/
theorem stack33_orig_val : stack33.v [0, 1, 1] = 4 := by
  norm_num [stack33]

/-- C3: the claim fails on the code.  `correct_distortion` overwrites every
input frame in place (`data[i] = mat_corrected`): after the call the input
buffer holds 8 at pixel (0, 1, 1) where it held 4. -/
theorem correct_distortion_mutates_input :
    (correct_distortion stack33 (some 1) fs1 pv1 none none none 0).map
      (fun r => r.1.v [0, 1, 1]) = .ok 8 ∧
    stack33.v [0, 1, 1] = 4 ∧ (8 : ℝ) ≠ 4 :=
  ⟨distortion33_state_val, stack33_orig_val, by norm_num⟩

/-- C3 (amended): `normalize_cupy` and `median_filter3d` write only to
freshly allocated buffers and return the input unchanged; but
`correct_distortion` writes each corrected frame back into the caller's
input stack in place. -/
theorem transforms_write_discipline :
    (∀ (data flats darks : Arr) (cutoff : ℝ) (ml nn rn : Bool)
      (st out : Arr),
      normalize_cupy data flats darks cutoff ml nn rn = .ok (st, out) →
        st = data) ∧
    (∀ (data : Arr) (k : ℕ) (dif : ℝ) (st out : Arr),
      median_filter3d data k dif = .ok (st, out) → st = data) ∧
    ((correct_distortion stack33 (some 1) fs1 pv1 none none none 0).map
      (fun r => r.1.v [0, 1, 1]) = .ok 8 ∧ stack33.v [0, 1, 1] = 4) := by
  refine ⟨?_, ?_, distortion33_state_val, stack33_orig_val⟩
  · intro data flats darks cutoff ml nn rn st out h
    unfold normalize_cupy at h
    cases hX : normalize_out data flats darks cutoff ml nn rn with
    | error e => rw [hX] at h; exact absurd h (by simp [Except.map])
    | ok d =>
      rw [hX] at h
      simp only [Except.map, Except.ok.injEq, Prod.mk.injEq] at h
      exact h.1.symm
  · intro data k dif st out h
    unfold median_filter3d at h
    cases hX : median_filter3d_out data k dif with
    | error e => rw [hX] at h; exact absurd h (by simp [Except.map])
    | ok d =>
      rw [hX] at h
      simp only [Except.map, Except.ok.injEq, Prod.mk.injEq] at h
      exact h.1.symm

/-- Witness for C3 (amended): a successful median filter call returns its
input as the untouched first component. -/
theorem transforms_write_discipline_witness :
    ∃ st out, median_filter3d arrOK 3 0 = .ok (st, out) ∧ st = arrOK :=
  ⟨arrOK, median_kernel arrOK 3 0, rfl,
    transforms_write_discipline.2.1 arrOK 3 0 arrOK (median_kernel arrOK 3 0)
      rfl⟩

/-- Counterexample for C8 as stated: with identity coefficients and crop 0
on a 2-frame stack the returned value is a 2-dimensional array (the last
frame), not the (3-dimensional) center-cropped copy of the input stack. -/
theorem correct_distortion_identity_not_stack :
    (correct_distortion stack2 (some 0) fs1 pv1 none none none 0).map
      (fun r => r.2.shape.length) = .ok 2 ∧ stack2.shape.length = 3 := by
  refine ⟨?_, rfl⟩
  rw [correct_distortion_ok stack2 0 fs1 pv1 none none none 0 fileIdent
    0 0 [1] 2 2 1 0 0 [(1 : ℝ)] rfl rfl (by decide) rfl (by omega)
    (by omega) (by simp [pv1]) (by simp [pv1]) (by simp)
    (identity_diff_ok 2 1 0 0 0 (by omega) (by omega))]
  rfl

theorem forall2_replicate_zero (m : ℕ) :
    List.Forall₂ (fun (l : MetaLine) v => l.getLast? = some (some v))
      (List.replicate m [some 0]) (List.replicate m (0 : ℚ)) := by
  induction m with
  | zero => exact .nil
  | succ k ih => exact .cons rfl ih

theorem parse_metadata_one_zeros (xcq ycq : ℚ) (m : ℕ) :
    parse_metadata ([[some xcq], [some ycq], [some 1]] ++
      List.replicate m [some 0]) = .ok (xcq, ycq, 1 :: List.replicate m 0) := by
  have hf2 : List.Forall₂
      (fun (l : MetaLine) v => l.getLast? = some (some v))
      ([[some xcq], [some ycq], [some 1]] ++ List.replicate m [some 0])
      (xcq :: ycq :: 1 :: List.replicate m 0) := by
    exact .cons rfl (.cons rfl (.cons rfl (forall2_replicate_zero m)))
  have h := parseLines_ok _ _ hf2
  unfold parse_metadata
  simp only [List.cons_append, List.nil_append] at h ⊢
  rw [h]

/-- C8 (amended): with coefficient list `[1, 0, 0, ...]` and any center the
sampling map is the identity (`y_src = y`, `x_src = x` after clamping), and
with `crop = 0` the call succeeds, each in-place-updated frame equals the
original frame exactly, and the returned value is the (uncropped) last
input frame — not the full stack. -/
theorem correct_distortion_identity_map (m : ℕ) (xcq ycq : ℚ) (p : ℕ)
    (fs : FileSys) (data : Arr) (n h w : ℕ)
    (hfs : fs p = some ([[some xcq], [some ycq], [some 1]] ++
      List.replicate m [some 0]))
    (hshape : data.shape = [n, h, w]) (hn : n ≠ 0) (hh : 2 ≤ h)
    (hw : w ≠ 0) :
    (∀ y x, y < h → x < w →
      ydMat h ((1 : ℝ) :: List.replicate m 0) (xcq : ℝ) (ycq : ℝ) y x = y ∧
      xdMat w ((1 : ℝ) :: List.replicate m 0) (xcq : ℝ) (ycq : ℝ) y x = x) ∧
    ∃ st ret,
      correct_distortion data (some p) fs pv1 none none none 0 =
        .ok (st, ret) ∧
      ret.shape = [h, w] ∧
      (∀ y x, y < h → x < w → ret.v [y, x] = data.v [n - 1, y, x]) ∧
      (∀ i y x, i < n → y < h → x < w → st.v [i, y, x] = data.v [i, y, x]) := by
  constructor
  · intro y x hy hx
    exact ⟨ydMat_one_zeros h m _ _ y x hy, xdMat_one_zeros w m _ _ y x hx⟩
  · rw [correct_distortion_ok data p fs pv1 none none none 0 _ xcq ycq
      (1 :: List.replicate m 0) n h w (xcq : ℝ) (ycq : ℝ)
      ((1 : ℝ) :: List.replicate m 0) hfs (parse_metadata_one_zeros xcq ycq m)
      (by decide) hshape (by omega) hw (by simp [pv1]) (by simp [pv1])
      (by simp [List.map_replicate, Rat.cast_one, Rat.cast_zero])
      (identity_diff_ok h w m _ _ hh hw)]
    have hloop : distortLoop data n h w ((1 : ℝ) :: List.replicate m 0)
        (xcq : ℝ) (ycq : ℝ) 0 =
        .ok (distortFinal data n h w ((1 : ℝ) :: List.replicate m 0)
               (xcq : ℝ) (ycq : ℝ) 0,
             distortRet data n h w ((1 : ℝ) :: List.replicate m 0)
               (xcq : ℝ) (ycq : ℝ) 0) := by
      unfold distortLoop
      rw [if_neg hn, if_neg (by simp)]
    rw [hloop]
    refine ⟨_, _, rfl, by simp [distortRet], ?_, ?_⟩
    · intro y x hy hx
      show distortCorrected data h w ((1 : ℝ) :: List.replicate m 0)
        (xcq : ℝ) (ycq : ℝ) 0 (n - 1) y x = data.v [n - 1, y, x]
      exact distortCorrected_identity data h w m _ _ (n - 1) y x hy hx
    · intro i y x hi hy hx
      show (if i < n ∧ y < h ∧ x < w then
          distortCorrected data h w ((1 : ℝ) :: List.replicate m 0)
            (xcq : ℝ) (ycq : ℝ) 0 i
            (if h - 2 * 0 = 1 then 0 else y) (if w - 2 * 0 = 1 then 0 else x)
        else data.v [i, y, x]) = data.v [i, y, x]
      rw [if_pos ⟨hi, hy, hx⟩]
      have ey : (if h - 2 * 0 = 1 then 0 else y) = y := by
        split_ifs with h1
        · omega
        · rfl
      have ex : (if w - 2 * 0 = 1 then 0 else x) = x := by
        split_ifs with h1
        · omega
        · rfl
      rw [ey, ex]
      exact distortCorrected_identity data h w m _ _ i y x hy hx

/-- Witness for C8 (amended), on the concrete 2-frame stack and the
identity coefficient file. -/
theorem correct_distortion_identity_map_witness :
    (∀ y x, y < 2 → x < 1 →
      ydMat 2 [(1 : ℝ)] ((0 : ℚ) : ℝ) ((0 : ℚ) : ℝ) y x = y ∧
      xdMat 1 [(1 : ℝ)] ((0 : ℚ) : ℝ) ((0 : ℚ) : ℝ) y x = x) ∧
    ∃ st ret,
      correct_distortion stack2 (some 0) fs1 pv1 none none none 0 =
        .ok (st, ret) ∧
      ret.shape = [2, 1] ∧
      (∀ y x, y < 2 → x < 1 → ret.v [y, x] = stack2.v [2 - 1, y, x]) ∧
      (∀ i y x, i < 2 → y < 2 → x < 1 →
        st.v [i, y, x] = stack2.v [i, y, x]) :=
  correct_distortion_identity_map 0 0 0 0 fs1 stack2 2 2 1 rfl rfl
    (by omega) (by omega) (by omega)

/-! ## Broadcast helpers for the normalization proof -/

theorem bcastOk_1hw (n h w : ℕ) : bcastOk [n, h, w] [1, h, w] = true := by
  simp [bcastOk, show List.range 3 = [0, 1, 2] from rfl]

theorem bcastShape_1hw (n h w : ℕ) :
    bcastShape [n, h, w] [1, h, w] = [n, h, w] := by
  have e1 : (if n = 1 then 1 else n) = n := by
    split_ifs with h1
    · omega
    · rfl
  simp [bcastShape, e1]

theorem bIdx_lt3 (n h w f y x : ℕ) (hf : f < n) (hy : y < h) (hx : x < w) :
    bIdx [n, h, w] [f, y, x] = [f, y, x] := by
  have e1 : (if n = 1 then 0 else f) = f := by
    split_ifs with h1
    · omega
    · rfl
  have e2 : (if h = 1 then 0 else y) = y := by
    split_ifs with h1
    · omega
    · rfl
  have e3 : (if w = 1 then 0 else x) = x := by
    split_ifs with h1
    · omega
    · rfl
  simp [bIdx, e1, e2, e3]

theorem bIdx_one3 (h w f y x : ℕ) (hy : y < h) (hx : x < w) :
    bIdx [1, h, w] [f, y, x] = [0, y, x] := by
  have e2 : (if h = 1 then 0 else y) = y := by
    split_ifs with h1
    · omega
    · rfl
  have e3 : (if w = 1 then 0 else x) = x := by
    split_ifs with h1
    · omega
    · rfl
  simp [bIdx, e2, e3]

theorem bop_ok (f : ℝ → ℝ → ℝ) (a b : Arr)
    (hok : bcastOk a.shape b.shape = true) :
    bop f a b = .ok
      { shape := bcastShape a.shape b.shape
        dtype := .float32
        v := fun idx => f (a.v (bIdx a.shape idx)) (b.v (bIdx b.shape idx)) } := by
  unfold bop
  rw [if_pos hok]

theorem if_lt_one_eq_max (x : ℝ) : (if x < 1 then 1 else x) = max x 1 := by
  split_ifs with h1
  · exact (max_eq_right h1.le).symm
  · exact (max_eq_left (not_lt.mp h1)).symm

theorem if_lt_cutoff_eq_min (c x : ℝ) : (if c < x then c else x) = min x c := by
  split_ifs with h1
  · exact (min_eq_right h1.le).symm
  · exact (min_eq_left (not_lt.mp h1)).symm

/-- The end-to-end scenario data: a 3-frame 50×50 float32 stack of 12s. -/
noncomputable def dataScen : Arr := ⟨[3, 50, 50], .float32, fun _ => 12⟩

/-- The end-to-end scenario calibration: a 3-frame 50×50 stack of 2s. -/
noncomputable def calScen : Arr := ⟨[3, 50, 50], .float32, fun _ => 2⟩

/-- C5: with all post-processing flags false, `normalize_cupy` computes at
every pixel `min((data - mean(darks)) / max(mean(flats) - mean(darks), 1),
cutoff)`; consequently every output element is at most `cutoff`, wherever
flat equals dark the value is `min(data - dark, cutoff)` (no division), and
on the 3-frame 50×50 scenario (flats = darks = 2, data = 12, cutoff = 10)
every output element is exactly 10. -/
theorem normalize_cupy_formula :
    (∀ (data flats darks : Arr) (cutoff : ℝ) (n m1 m2 h w : ℕ),
      data.shape = [n, h, w] → flats.shape = [m1, h, w] →
      darks.shape = [m2, h, w] →
      ∃ out,
        normalize_cupy data flats darks cutoff false false false =
          .ok (data, out) ∧
        out.shape = [n, h, w] ∧
        (∀ f y x, f < n → y < h → x < w →
          out.v [f, y, x] =
            min ((data.v [f, y, x] - (meanAxis0 darks).v [y, x]) /
              max ((meanAxis0 flats).v [y, x] - (meanAxis0 darks).v [y, x]) 1)
              cutoff) ∧
        (∀ f y x, f < n → y < h → x < w → out.v [f, y, x] ≤ cutoff) ∧
        (∀ f y x, f < n → y < h → x < w →
          (meanAxis0 flats).v [y, x] = (meanAxis0 darks).v [y, x] →
          out.v [f, y, x] =
            min (data.v [f, y, x] - (meanAxis0 darks).v [y, x]) cutoff)) ∧
    (∃ out,
      normalize_cupy dataScen calScen calScen 10 false false false =
        .ok (dataScen, out) ∧
      ∀ f y x, f < 3 → y < 50 → x < 50 → out.v [f, y, x] = 10) := by
  have main : ∀ (data flats darks : Arr) (cutoff : ℝ) (n m1 m2 h w : ℕ),
      data.shape = [n, h, w] → flats.shape = [m1, h, w] →
      darks.shape = [m2, h, w] →
      ∃ out,
        normalize_cupy data flats darks cutoff false false false =
          .ok (data, out) ∧
        out.shape = [n, h, w] ∧
        (∀ f y x, f < n → y < h → x < w →
          out.v [f, y, x] =
            min ((data.v [f, y, x] - (meanAxis0 darks).v [y, x]) /
              max ((meanAxis0 flats).v [y, x] - (meanAxis0 darks).v [y, x]) 1)
              cutoff) ∧
        (∀ f y x, f < n → y < h → x < w → out.v [f, y, x] ≤ cutoff) ∧
        (∀ f y x, f < n → y < h → x < w →
          (meanAxis0 flats).v [y, x] = (meanAxis0 darks).v [y, x] →
          out.v [f, y, x] =
            min (data.v [f, y, x] - (meanAxis0 darks).v [y, x]) cutoff) := by
    intro data flats darks cutoff n m1 m2 h w hd hf hk
    have ef : (meanAxis0 flats).shape = [h, w] := by simp [meanAxis0, hf]
    have ek : (meanAxis0 darks).shape = [h, w] := by simp [meanAxis0, hk]
    have hok1 : bcastOk (expandAxis0 (meanAxis0 flats)).shape
        (expandAxis0 (meanAxis0 darks)).shape = true := by
      simp only [expandAxis0, ef, ek]
      exact bcastOk_1hw 1 h w
    have hok2 : bcastOk data.shape (expandAxis0 (meanAxis0 darks)).shape
        = true := by
      simp only [expandAxis0, ek, hd]
      exact bcastOk_1hw n h w
    have hbop1 := bop_ok (· - ·) (expandAxis0 (meanAxis0 flats))
      (expandAxis0 (meanAxis0 darks)) hok1
    have hbop2 := bop_ok (· - ·) data (expandAxis0 (meanAxis0 darks)) hok2
    unfold normalize_cupy normalize_out
    rw [if_neg (show ¬ data.shape.length ≠ 3 by simp [hd])]
    rw [if_pos (show (meanAxis0 flats).shape.length = 2 by simp [ef])]
    rw [if_pos (show (meanAxis0 darks).shape.length = 2 by simp [ek])]
    rw [if_neg (show ¬ ¬ ((expandAxis0 (meanAxis0 flats)).shape.length = 2 ∨
      (expandAxis0 (meanAxis0 flats)).shape.length = 3) by
        simp [expandAxis0, ef])]
    rw [if_neg (show ¬ ¬ ((expandAxis0 (meanAxis0 darks)).shape.length = 2 ∨
      (expandAxis0 (meanAxis0 darks)).shape.length = 3) by
        simp [expandAxis0, ek])]
    rw [hbop1, hbop2]
    simp only []
    have hbop3 := bop_ok (· / ·)
      ⟨bcastShape data.shape (expandAxis0 (meanAxis0 darks)).shape, .float32,
        fun idx => data.v (bIdx data.shape idx) -
          (expandAxis0 (meanAxis0 darks)).v
            (bIdx (expandAxis0 (meanAxis0 darks)).shape idx)⟩
      (amap (fun x => if x < 1 then 1 else x)
        ⟨bcastShape (expandAxis0 (meanAxis0 flats)).shape
            (expandAxis0 (meanAxis0 darks)).shape, .float32,
          fun idx => (expandAxis0 (meanAxis0 flats)).v
              (bIdx (expandAxis0 (meanAxis0 flats)).shape idx) -
            (expandAxis0 (meanAxis0 darks)).v
              (bIdx (expandAxis0 (meanAxis0 darks)).shape idx)⟩)
      (by simp [amap, expandAxis0, ef, ek, hd, bcastShape_1hw, bcastOk_1hw])
    rw [hbop3]
    simp only [Except.map, Bool.false_eq_true, if_false]
    refine ⟨_, rfl, ?_, ?_, ?_, ?_⟩
    · simp [amap, expandAxis0, hd, ef, ek, bcastShape_1hw]
    · intro f y x hfn hyh hxw
      simp only [amap, expandAxis0, hd, ef, ek, bcastShape_1hw,
        bIdx_lt3 n h w f y x hfn hyh hxw, bIdx_one3 h w f y x hyh hxw,
        bIdx_one3 h w 0 y x hyh hxw, List.tail_cons]
      rw [if_lt_one_eq_max, if_lt_cutoff_eq_min]
    · intro f y x hfn hyh hxw
      simp only [amap, expandAxis0, hd, ef, ek, bcastShape_1hw,
        bIdx_lt3 n h w f y x hfn hyh hxw, bIdx_one3 h w f y x hyh hxw,
        bIdx_one3 h w 0 y x hyh hxw, List.tail_cons]
      rw [if_lt_one_eq_max, if_lt_cutoff_eq_min]
      exact min_le_right _ _
    · intro f y x hfn hyh hxw heq
      simp only [amap, expandAxis0, hd, ef, ek, bcastShape_1hw,
        bIdx_lt3 n h w f y x hfn hyh hxw, bIdx_one3 h w f y x hyh hxw,
        bIdx_one3 h w 0 y x hyh hxw, List.tail_cons]
      rw [if_lt_one_eq_max, if_lt_cutoff_eq_min, heq, sub_self,
        max_eq_right zero_le_one, div_one]
  refine ⟨main, ?_⟩
  obtain ⟨out, heq, hsh, hform, hbound, hfd⟩ :=
    main dataScen calScen calScen 10 3 3 3 50 50 rfl rfl rfl
  refine ⟨out, heq, ?_⟩
  intro f y x hfn hyh hxw
  rw [hform f y x hfn hyh hxw]
  have hmean : (meanAxis0 calScen).v [y, x] = 2 := by
    simp [meanAxis0, calScen, Finset.sum_const, Finset.card_range]
  have hdat : dataScen.v [f, y, x] = 12 := rfl
  rw [hmean, hdat, show (2 : ℝ) - 2 = 0 by norm_num,
    max_eq_right zero_le_one]
  norm_num

/-- Witness for C5: the general formula applied to the concrete scenario
stacks, with every shape hypothesis discharged. -/
theorem normalize_cupy_formula_witness :
    ∃ out,
      normalize_cupy dataScen calScen calScen 10 false false false =
        .ok (dataScen, out) ∧
      out.shape = [3, 50, 50] ∧
      (∀ f y x, f < 3 → y < 50 → x < 50 →
        out.v [f, y, x] =
          min ((dataScen.v [f, y, x] - (meanAxis0 calScen).v [y, x]) /
            max ((meanAxis0 calScen).v [y, x] - (meanAxis0 calScen).v [y, x])
              1) 10) ∧
      (∀ f y x, f < 3 → y < 50 → x < 50 → out.v [f, y, x] ≤ 10) ∧
      (∀ f y x, f < 3 → y < 50 → x < 50 →
        (meanAxis0 calScen).v [y, x] = (meanAxis0 calScen).v [y, x] →
        out.v [f, y, x] =
          min (dataScen.v [f, y, x] - (meanAxis0 calScen).v [y, x]) 10) :=
  normalize_cupy_formula.1 dataScen calScen calScen 10 3 3 3 50 50 rfl rfl rfl

end Httomo
